import Mathlib

/-!
Verification of the NCAA_Football betting-dashboard analytics engine.

The definitions below are a shallow embedding of the JavaScript source:

* `public/convert-nfl.js` — odds conversion (`moneylineToDecimal`,
  `impliedProbabilityFromMoneyline`), best-price selection
  (`selectBestMoneyline`) and the per-game metrics pipeline
  (`computeNFLMetrics`), lines 374–555 of the file (the analytics module
  that the dashboard actually loads last);
* `server.js` (identical code also appears in the unnamed server copy) —
  the mapping layer (`toNumber`, `pickNumericValue`, `mapOddsHistory`,
  `mapLineHistory`, `mapNCAAFGame`, `mapNFLGame`).

JavaScript numbers are modelled as exact rationals together with the
non-finite values ±Infinity and NaN; `null` and `undefined` are explicit
constructors.  Wherever JavaScript produces a non-finite value
(for instance `100 / Math.abs(0) = Infinity`) the embedding records this
exactly rather than adopting Lean's `x / 0 = 0` convention.
-/

namespace NCAAF

/-- A JavaScript value in the positions the analytics engine reads:
`null`, `undefined`, or a number (NaN, ±Infinity, or a finite value,
which we model as an exact rational). -/
inductive JSVal where
  | nullv
  | undefv
  | nan
  | inf
  | ninf
  | num (q : ℚ)
deriving DecidableEq, Repr

/-- JavaScript `Number(x)` coercion on the values we model:
`Number(null) = 0`, `Number(undefined) = NaN`, numbers unchanged. -/
def jsNumber : JSVal → JSVal
  | .nullv => .num 0
  | .undefv => .nan
  | v => v

/-- `Number.isFinite` combined with extraction of the finite value. -/
def jsFinite : JSVal → Option ℚ
  | .num q => some q
  | _ => none

/-- The `toNumber` helper of `convert-nfl.js` (and `server.js`):
`null`/`undefined`/`''` give `null`; otherwise the result of `Number(x)`
is kept only when finite. -/
def toNumber : JSVal → Option ℚ
  | .num q => some q
  | _ => none

/-- A decimal-odds value as JavaScript computes it: a finite number or
`Infinity` (the latter arises from `100 / Math.abs(0)`). -/
inductive JQ where
  | fin (q : ℚ)
  | jinf
deriving DecidableEq, Repr

/-- JavaScript `>` on decimal-odds values (`Infinity > Infinity` is false). -/
def JQ.gt : JQ → JQ → Bool
  | .jinf, .jinf => false
  | .jinf, .fin _ => true
  | .fin _, .jinf => false
  | .fin a, .fin b => decide (b < a)

/-- JavaScript truthiness of a decimal-odds number (`0` is falsy,
`Infinity` is truthy). -/
def JQ.truthy : JQ → Bool
  | .jinf => true
  | .fin q => decide (q ≠ 0)

/-- JavaScript `1 / d` for a decimal-odds value: `1 / Infinity = 0`.
It is only ever applied to truthy decimals, so the finite argument is
non-zero and agrees with rational division. -/
def JQ.inv : JQ → ℚ
  | .jinf => 0
  | .fin q => 1 / q

/-- `moneylineToDecimal` from `convert-nfl.js`:

    const odds = Number(ml);
    if (!Number.isFinite(odds)) return null;
    return odds > 0 ? (odds / 100) + 1 : (100 / Math.abs(odds)) + 1;

For `odds = 0` the second branch divides by `Math.abs(0) = 0`, which in
JavaScript yields `Infinity`, recorded here as `JQ.jinf`. -/
def moneylineToDecimal (ml : JSVal) : Option JQ :=
  match jsFinite (jsNumber ml) with
  | none => none
  | some odds =>
    if 0 < odds then some (.fin (odds / 100 + 1))
    else if odds = 0 then some .jinf
    else some (.fin (100 / |odds| + 1))

/-- `impliedProbabilityFromMoneyline` from `convert-nfl.js`:

    const odds = Number(ml);
    if (!Number.isFinite(odds)) return null;
    if (odds > 0) return 100 / (odds + 100);
    const abs = Math.abs(odds);
    return abs / (abs + 100);
-/
def impliedProbabilityFromMoneyline (ml : JSVal) : Option ℚ :=
  match jsFinite (jsNumber ml) with
  | none => none
  | some odds =>
    if 0 < odds then some (100 / (odds + 100))
    else some (|odds| / (|odds| + 100))

/-- The `{value, decimal}` pair returned by the best-price selector. -/
structure BestPrice where
  value : Option ℚ
  decimal : Option JQ
deriving DecidableEq, Repr

/-- One step of the `candidates.forEach` loop in `selectBestMoneyline`:

    const value = toNumber(candidate);
    if (value === null) return;
    const decimal = moneylineToDecimal(value);
    if (!decimal) return;
    if (bestDecimal === null || decimal > bestDecimal) {
      bestDecimal = decimal; bestValue = value;
    }
-/
def selectBestStep (best : BestPrice) (candidate : JSVal) : BestPrice :=
  match toNumber candidate with
  | none => best
  | some value =>
    match moneylineToDecimal (.num value) with
    | none => best
    | some decimal =>
      if decimal.truthy then
        match best.decimal with
        | none => { value := some value, decimal := some decimal }
        | some bd =>
          if decimal.gt bd then { value := some value, decimal := some decimal }
          else best
      else best

/-- `selectBestMoneyline` from `convert-nfl.js` (the spec calls it
`selectBestPrice`). -/
def selectBestMoneyline (candidates : List JSVal) : BestPrice :=
  candidates.foldl selectBestStep { value := none, decimal := none }

/-- The decimal odds of a finite survivor, written out directly; equal to
what `moneylineToDecimal` returns on a finite number. -/
def survivorDecimal (v : ℚ) : JQ :=
  if 0 < v then .fin (v / 100 + 1)
  else if v = 0 then .jinf
  else .fin (100 / |v| + 1)

/-- `selectBestPrice` as the specification describes it (§4.4): filter
out nulls and non-finite values, convert every survivor to decimal odds,
and return the pair with the maximum decimal odds, the first maximal
candidate winning ties; an empty or all-null list yields nulls. -/
def specSelectBestPrice (candidates : List JSVal) : BestPrice :=
  let pairs := (candidates.filterMap toNumber).map fun v => (v, survivorDecimal v)
  pairs.foldl
    (fun best p =>
      match best.decimal with
      | none => { value := some p.1, decimal := some p.2 }
      | some bd =>
        if JQ.gt p.2 bd then { value := some p.1, decimal := some p.2 }
        else best)
    { value := none, decimal := none }

/-- One `{open, min, max, close}` market tuple as the client reads it;
each field is a loosely-typed JS value. -/
structure MarketTuple where
  open' : JSVal
  min' : JSVal
  max' : JSVal
  close' : JSVal
deriving DecidableEq, Repr

/-- The empty object `{}` used as a fallback: every field reads as
`undefined`; the engine only ever feeds the fields through `??`, where
`undefined` and `null` behave identically, so `nullv` is used. -/
def MarketTuple.empty : MarketTuple := ⟨.nullv, .nullv, .nullv, .nullv⟩

/-- A `{home, away}` pair of market tuples; either side may be absent. -/
structure SidedHistory where
  home : Option MarketTuple
  away : Option MarketTuple
deriving DecidableEq, Repr

/-- JavaScript nullish coalescing `a ?? b`. -/
def jsCoalesce (a b : JSVal) : JSVal :=
  match a with
  | .nullv => b
  | .undefv => b
  | v => v

/-- Reinject a variable that holds null-or-a-finite-number (the result of
`toNumber`) back into the JS value domain, for passing to a JS function. -/
def jsvalOfOpt : Option ℚ → JSVal
  | none => .nullv
  | some q => .num q

/-- The input record of `computeNFLMetrics` with every field the function
reads; all fields are loosely typed (absent structures are `none`). -/
structure NFLGame where
  spreadHistory : Option SidedHistory
  totalHistory : Option MarketTuple
  moneylineHistory : Option SidedHistory
  spreadOddsHistory : Option SidedHistory
  totalOverOddsHistory : Option MarketTuple
  totalUnderOddsHistory : Option MarketTuple
  openingSpread : JSVal
  spread : JSVal
  openingOverUnder : JSVal
  overUnder : JSVal
  homeMoneylineOpen : JSVal
  homeMoneyline : JSVal
  homeMoneylineMin : JSVal
  homeMoneylineMax : JSVal
  awayMoneylineOpen : JSVal
  awayMoneyline : JSVal
  awayMoneylineMin : JSVal
  awayMoneylineMax : JSVal
  homeLineOddsOpen : JSVal
  homeLineOddsClose : JSVal
  totalScoreOverOpen : JSVal
  totalScoreOverClose : JSVal
  totalScoreUnderOpen : JSVal
  totalScoreUnderClose : JSVal

/-- A game record with no market data at all. -/
def NFLGame.empty : NFLGame :=
  { spreadHistory := none, totalHistory := none, moneylineHistory := none
    spreadOddsHistory := none, totalOverOddsHistory := none
    totalUnderOddsHistory := none
    openingSpread := .nullv, spread := .nullv
    openingOverUnder := .nullv, overUnder := .nullv
    homeMoneylineOpen := .nullv, homeMoneyline := .nullv
    homeMoneylineMin := .nullv, homeMoneylineMax := .nullv
    awayMoneylineOpen := .nullv, awayMoneyline := .nullv
    awayMoneylineMin := .nullv, awayMoneylineMax := .nullv
    homeLineOddsOpen := .nullv, homeLineOddsClose := .nullv
    totalScoreOverOpen := .nullv, totalScoreOverClose := .nullv
    totalScoreUnderOpen := .nullv, totalScoreUnderClose := .nullv }

/-- `Number(x.toFixed(2))` for the (non-negative) volatility sum:
`toFixed` rounds to the closest hundredth, ties toward the larger value. -/
def round2 (x : ℚ) : ℚ := (⌊x * 100 + 1/2⌋ : ℚ) / 100

/-- The derived fields of the record returned by `computeNFLMetrics`
(the returned object also spreads the unchanged input fields, which no
claim concerns). -/
structure NFLMetrics where
  lineMove : Option ℚ
  totalMove : Option ℚ
  spreadRange : Option ℚ
  totalRange : Option ℚ
  clv : Option ℚ
  arbProfit : Option ℚ
  signals : List String
  spreadOpen : Option ℚ
  spreadClose : Option ℚ
  spreadMin : Option ℚ
  spreadMax : Option ℚ
  totalOpen : Option ℚ
  totalClose : Option ℚ
  totalMin : Option ℚ
  totalMax : Option ℚ
  homeMoneylineOpen : Option ℚ
  homeMoneylineClose : Option ℚ
  homeMoneylineMin : Option ℚ
  homeMoneylineMax : Option ℚ
  awayMoneylineOpen : Option ℚ
  awayMoneylineClose : Option ℚ
  awayMoneylineMin : Option ℚ
  awayMoneylineMax : Option ℚ
  homeProbabilityShift : Option ℚ
  awayProbabilityShift : Option ℚ
  moneylineSteam : ℚ
  spreadOddsOpen : Option ℚ
  spreadOddsClose : Option ℚ
  totalOverOpen : Option ℚ
  totalOverClose : Option ℚ
  totalUnderOpen : Option ℚ
  totalUnderClose : Option ℚ
  bestHomeMoneyline : Option ℚ
  bestHomeMoneylineDecimal : Option JQ
  bestAwayMoneyline : Option ℚ
  bestAwayMoneylineDecimal : Option JQ
  volatilityScore : ℚ

/-- The numeric fields that the `games.map(game => ...)` arrow of
`computeNFLMetrics` (`convert-nfl.js`, lines 448–555) extracts first:
every market channel resolved through `toNumber` with its `??`
fallbacks.  The arrow body is split here into `extractNums` followed by
`buildMetrics` purely to keep the embedding in small definitions; their
composition `computeNFLMetricsOne` is the translation of the arrow. -/
structure NFLNums where
  spreadOpen : Option ℚ
  spreadClose : Option ℚ
  spreadMin : Option ℚ
  spreadMax : Option ℚ
  totalOpen : Option ℚ
  totalClose : Option ℚ
  totalMin : Option ℚ
  totalMax : Option ℚ
  homeMlOpen : Option ℚ
  homeMlClose : Option ℚ
  homeMlMin : Option ℚ
  homeMlMax : Option ℚ
  awayMlOpen : Option ℚ
  awayMlClose : Option ℚ
  awayMlMin : Option ℚ
  awayMlMax : Option ℚ
  spreadOddsOpen : Option ℚ
  spreadOddsClose : Option ℚ
  totalOverOpen : Option ℚ
  totalOverClose : Option ℚ
  totalUnderOpen : Option ℚ
  totalUnderClose : Option ℚ

/-- First half of the arrow body: resolve the open/min/max/close
numbers of every market channel (history field, `??` flat fallback,
`toNumber`). -/
def extractNums (game : NFLGame) : NFLNums :=
  let spreadHistory := (game.spreadHistory.bind SidedHistory.home).getD MarketTuple.empty
  let totalHistory := game.totalHistory.getD MarketTuple.empty
  let homeMoneylineHistory := (game.moneylineHistory.bind SidedHistory.home).getD MarketTuple.empty
  let awayMoneylineHistory := (game.moneylineHistory.bind SidedHistory.away).getD MarketTuple.empty
  let spreadOddsHistory := (game.spreadOddsHistory.bind SidedHistory.home).getD MarketTuple.empty
  let totalOverHistory := game.totalOverOddsHistory.getD MarketTuple.empty
  let totalUnderHistory := game.totalUnderOddsHistory.getD MarketTuple.empty
  { spreadOpen := toNumber (jsCoalesce spreadHistory.open' game.openingSpread)
    spreadClose := toNumber (jsCoalesce spreadHistory.close' game.spread)
    spreadMin := toNumber spreadHistory.min'
    spreadMax := toNumber spreadHistory.max'
    totalOpen := toNumber (jsCoalesce totalHistory.open' game.openingOverUnder)
    totalClose := toNumber (jsCoalesce totalHistory.close' game.overUnder)
    totalMin := toNumber totalHistory.min'
    totalMax := toNumber totalHistory.max'
    homeMlOpen := toNumber (jsCoalesce homeMoneylineHistory.open' game.homeMoneylineOpen)
    homeMlClose := toNumber (jsCoalesce homeMoneylineHistory.close' game.homeMoneyline)
    homeMlMin := toNumber (jsCoalesce homeMoneylineHistory.min' game.homeMoneylineMin)
    homeMlMax := toNumber (jsCoalesce homeMoneylineHistory.max' game.homeMoneylineMax)
    awayMlOpen := toNumber (jsCoalesce awayMoneylineHistory.open' game.awayMoneylineOpen)
    awayMlClose := toNumber (jsCoalesce awayMoneylineHistory.close' game.awayMoneyline)
    awayMlMin := toNumber (jsCoalesce awayMoneylineHistory.min' game.awayMoneylineMin)
    awayMlMax := toNumber (jsCoalesce awayMoneylineHistory.max' game.awayMoneylineMax)
    spreadOddsOpen := toNumber (jsCoalesce spreadOddsHistory.open' game.homeLineOddsOpen)
    spreadOddsClose := toNumber (jsCoalesce spreadOddsHistory.close' game.homeLineOddsClose)
    totalOverOpen := toNumber (jsCoalesce totalOverHistory.open' game.totalScoreOverOpen)
    totalOverClose := toNumber (jsCoalesce totalOverHistory.close' game.totalScoreOverClose)
    totalUnderOpen := toNumber (jsCoalesce totalUnderHistory.open' game.totalScoreUnderOpen)
    totalUnderClose := toNumber (jsCoalesce totalUnderHistory.close' game.totalScoreUnderClose) }

/-- Second half of the arrow body: movement deltas, ranges, CLV, the
signal tags in push order, arbitrage margin and the volatility score.
The source tests `Number.isFinite(maxProbShift)` twice; that value is
built from `Math.abs` of finite shifts with `?? 0` fallbacks, so the
tests are always true and are not reproduced.  `Number(null) = 0` makes
`impliedProbabilityFromMoneyline` return a number (not null) on null
moneylines; the embedding keeps that behaviour via `jsvalOfOpt`. -/
def buildMetrics (n : NFLNums) : NFLMetrics :=
  let lineMove : Option ℚ := match n.spreadClose, n.spreadOpen with
    | some c, some o => some (c - o)
    | _, _ => none
  let totalMove : Option ℚ := match n.totalClose, n.totalOpen with
    | some c, some o => some (c - o)
    | _, _ => none
  let spreadRange : Option ℚ := match n.spreadMin, n.spreadMax with
    | some mn, some mx => some (mx - mn)
    | _, _ => none
  let totalRange : Option ℚ := match n.totalMin, n.totalMax with
    | some mn, some mx => some (mx - mn)
    | _, _ => none
  let clv : Option ℚ := lineMove.map fun x => -x
  let spreadSteam : Bool := lineMove.any fun lm => decide ((5:ℚ)/2 ≤ |lm|)
  let isReverse : Bool :=
    match n.spreadOpen, n.spreadClose with
    | some o, some c => (decide (o < 0) && decide (o < c)) || (decide (0 < o) && decide (c < o))
    | _, _ => false
  let totalSteam : Bool := totalMove.any fun tm => decide ((2:ℚ) ≤ |tm|)
  let homeProbShift : Option ℚ :=
    match impliedProbabilityFromMoneyline (jsvalOfOpt n.homeMlOpen),
        impliedProbabilityFromMoneyline (jsvalOfOpt n.homeMlClose) with
    | some o, some c => some ((c - o) * 100)
    | _, _ => none
  let awayProbShift : Option ℚ :=
    match impliedProbabilityFromMoneyline (jsvalOfOpt n.awayMlOpen),
        impliedProbabilityFromMoneyline (jsvalOfOpt n.awayMlClose) with
    | some o, some c => some ((c - o) * 100)
    | _, _ => none
  let maxProbShift : ℚ := max |homeProbShift.getD 0| |awayProbShift.getD 0|
  let mlSteam : Bool := decide ((5:ℚ) ≤ maxProbShift)
  let bestHome : BestPrice := selectBestMoneyline
    [jsvalOfOpt n.homeMlOpen, jsvalOfOpt n.homeMlClose, jsvalOfOpt n.homeMlMin, jsvalOfOpt n.homeMlMax]
  let bestAway : BestPrice := selectBestMoneyline
    [jsvalOfOpt n.awayMlOpen, jsvalOfOpt n.awayMlClose, jsvalOfOpt n.awayMlMin, jsvalOfOpt n.awayMlMax]
  let arbProfit : Option ℚ :=
    match bestHome.decimal, bestAway.decimal with
    | some dh, some da =>
      if dh.truthy && da.truthy then
        if dh.inv + da.inv < 1 then some ((1 - (dh.inv + da.inv)) * 100) else none
      else none
    | _, _ => none
  let signals : List String :=
    (if spreadSteam then ["SPREAD STEAM"] else []) ++
    (if isReverse then ["REVERSE"] else []) ++
    (if totalSteam then ["TOTAL STEAM"] else []) ++
    (if mlSteam then ["ML STEAM"] else []) ++
    (if arbProfit.isSome then ["ARB"] else [])
  let volatilityScore : ℚ := round2
    (|lineMove.getD 0| +
      max (spreadRange.getD 0) 0 * (1/2) +
      |totalMove.getD 0| * (1/2) +
      max (totalRange.getD 0) 0 * (1/4) +
      maxProbShift / 5)
  { lineMove := lineMove, totalMove := totalMove,
    spreadRange := spreadRange, totalRange := totalRange,
    clv := clv, arbProfit := arbProfit, signals := signals,
    spreadOpen := n.spreadOpen, spreadClose := n.spreadClose,
    spreadMin := n.spreadMin, spreadMax := n.spreadMax,
    totalOpen := n.totalOpen, totalClose := n.totalClose,
    totalMin := n.totalMin, totalMax := n.totalMax,
    homeMoneylineOpen := n.homeMlOpen, homeMoneylineClose := n.homeMlClose,
    homeMoneylineMin := n.homeMlMin, homeMoneylineMax := n.homeMlMax,
    awayMoneylineOpen := n.awayMlOpen, awayMoneylineClose := n.awayMlClose,
    awayMoneylineMin := n.awayMlMin, awayMoneylineMax := n.awayMlMax,
    homeProbabilityShift := homeProbShift, awayProbabilityShift := awayProbShift,
    moneylineSteam := maxProbShift,
    spreadOddsOpen := n.spreadOddsOpen, spreadOddsClose := n.spreadOddsClose,
    totalOverOpen := n.totalOverOpen, totalOverClose := n.totalOverClose,
    totalUnderOpen := n.totalUnderOpen, totalUnderClose := n.totalUnderClose,
    bestHomeMoneyline := bestHome.value, bestHomeMoneylineDecimal := bestHome.decimal,
    bestAwayMoneyline := bestAway.value, bestAwayMoneylineDecimal := bestAway.decimal,
    volatilityScore := volatilityScore }

/-- The per-game body of `computeNFLMetrics`: extraction followed by
derivation of movement metrics, signals, arbitrage and volatility. -/
def computeNFLMetricsOne (game : NFLGame) : NFLMetrics :=
  buildMetrics (extractNums game)

/-- `computeNFLMetrics` maps the per-game computation over the list. -/
def computeNFLMetrics (games : List NFLGame) : List NFLMetrics :=
  games.map computeNFLMetricsOne

/-! ## The server-side mapping layer (`server.js`) -/

/-- A raw JS value as it appears in a source data row: numbers (finite,
NaN, ±Infinity), booleans, strings, `null` or `undefined`.  Strings in
numeric positions are outside the modelled domain: the source rows carry
numbers, booleans or nulls there, and no claim exercises numeric
strings, so `Number(string)` parsing is modelled as NaN (exact for every
non-numeric string and for the pre-`Number` empty-string check). -/
inductive RawVal where
  | nullv
  | undefv
  | boolv (b : Bool)
  | nan
  | inf
  | ninf
  | num (q : ℚ)
  | str (s : String)
deriving DecidableEq, Repr

/-- `toNumber` from `server.js`: null/undefined/'' give null, then
`Number(value)` is kept when finite (`Number(true) = 1`,
`Number(false) = 0`). -/
def toNumberRaw : RawVal → Option ℚ
  | .num q => some q
  | .boolv b => some (if b then 1 else 0)
  | _ => none

/-- `toBoolean` from `server.js`: null/undefined give false, booleans
pass through, a number is true iff `value !== 0` (so NaN and ±Infinity
give true), a string is compared case-insensitively against the
whitelist. -/
def toBoolean : RawVal → Bool
  | .nullv => false
  | .undefv => false
  | .boolv b => b
  | .num q => decide (q ≠ 0)
  | .nan => true
  | .inf => true
  | .ninf => true
  | .str s => ["true", "t", "yes", "y", "1"].contains s.trim.toLower

/-- JavaScript truthiness of a raw value (`Boolean(x)`); note
`Boolean(NaN) = false` while `toBoolean(NaN) = true`. -/
def truthyRaw : RawVal → Bool
  | .nullv => false
  | .undefv => false
  | .boolv b => b
  | .num q => decide (q ≠ 0)
  | .nan => false
  | .inf => true
  | .ninf => true
  | .str s => decide (s ≠ "")

/-- JavaScript `a || b` on raw values. -/
def jsOrRaw (a b : RawVal) : RawVal := if truthyRaw a then a else b

/-- JavaScript `a ?? b` on raw values. -/
def rawCoalesce (a b : RawVal) : RawVal :=
  match a with
  | .nullv => b
  | .undefv => b
  | v => v

/-- A raw game row: an object modelled as an association list from
property names to values (a missing key reads as `undefined`). -/
def RawGame := List (String × RawVal)

/-- `game.key` property access: `undefined` when the key is absent. -/
def rawField (g : RawGame) (key : String) : RawVal :=
  (List.lookup key g).getD .undefv

/-- `key.charAt(0).toLowerCase() + key.slice(1)`. -/
def lowerFirst (s : String) : String :=
  match s.data with
  | [] => ""
  | c :: cs => String.mk (c.toLower :: cs)

/-- `pickNumericValue` from `server.js`: try the key and then its
first-letter-lowercased variant; a variant counts only when the
property is present and `toNumber` of its value is non-null. -/
def pickNumericValue (g : RawGame) (key : String) : Option ℚ :=
  if key = "" then none
  else
    match (List.lookup key g).bind toNumberRaw with
    | some n => some n
    | none => (List.lookup (lowerFirst key) g).bind toNumberRaw

/-- An `{open, min, max, close}` tuple of resolved numbers, as built by
the mapping layer. -/
structure MarketTupleQ where
  open' : Option ℚ
  min' : Option ℚ
  max' : Option ℚ
  close' : Option ℚ
deriving DecidableEq, Repr

/-- `mapOddsHistory(game, pfx)` from `server.js`: the close falls back
to the bare prefixed field. -/
def mapOddsHistory (g : RawGame) (pfx : String) : MarketTupleQ :=
  { open' := pickNumericValue g (pfx ++ "Open")
    min' := pickNumericValue g (pfx ++ "Min")
    max' := pickNumericValue g (pfx ++ "Max")
    close' := (pickNumericValue g (pfx ++ "Close")).orElse
      fun _ => pickNumericValue g pfx }

/-- `mapLineHistory` from `server.js`; its body duplicates
`mapOddsHistory` line for line. -/
def mapLineHistory (g : RawGame) (pfx : String) : MarketTupleQ :=
  { open' := pickNumericValue g (pfx ++ "Open")
    min' := pickNumericValue g (pfx ++ "Min")
    max' := pickNumericValue g (pfx ++ "Max")
    close' := (pickNumericValue g (pfx ++ "Close")).orElse
      fun _ => pickNumericValue g pfx }

/-- The record returned by `mapNCAAFGame`. -/
structure MappedNCAAF where
  id : RawVal
  sport : String
  season : RawVal
  week : RawVal
  startDate : RawVal
  homeTeam : RawVal
  awayTeam : RawVal
  homeConference : RawVal
  awayConference : RawVal
  homeScore : Option ℚ
  awayScore : Option ℚ
  spread : Option ℚ
  overUnder : Option ℚ
  openingSpread : Option ℚ
  openingOverUnder : Option ℚ
  homeMoneyline : Option ℚ
  awayMoneyline : Option ℚ
  seasonType : RawVal
  completed : Bool
  lineProvider : RawVal

/-- `mapNCAAFGame` from `server.js`, line for line.  `completed` passes
an explicit boolean `Completed` through unchanged and otherwise derives
from score presence (`Number.isFinite` of a null-or-finite value is
exactly `Option.isSome`). -/
def mapNCAAFGame (g : RawGame) : MappedNCAAF :=
  let homeScore := toNumberRaw (rawCoalesce (rawField g "HomeScore") (rawField g "homeScore"))
  let awayScore := toNumberRaw (rawCoalesce (rawField g "AwayScore") (rawField g "awayScore"))
  { id := rawCoalesce (rawField g "Id") (rawCoalesce (rawField g "id") .nullv)
    sport := "ncaaf"
    season := rawCoalesce (rawField g "Season") (rawCoalesce (rawField g "season") .nullv)
    week := rawCoalesce (rawField g "Week") (rawCoalesce (rawField g "week") .nullv)
    startDate := rawCoalesce (rawField g "StartDate") (rawCoalesce (rawField g "startDate") .nullv)
    homeTeam := rawCoalesce (rawField g "HomeTeam_x")
      (rawCoalesce (rawField g "HomeTeam") (rawCoalesce (rawField g "homeTeam") .nullv))
    awayTeam := rawCoalesce (rawField g "AwayTeam_x")
      (rawCoalesce (rawField g "AwayTeam") (rawCoalesce (rawField g "awayTeam") .nullv))
    homeConference := rawCoalesce (rawField g "HomeConference")
      (rawCoalesce (rawField g "homeConference") .nullv)
    awayConference := rawCoalesce (rawField g "AwayConference")
      (rawCoalesce (rawField g "awayConference") .nullv)
    homeScore := homeScore
    awayScore := awayScore
    spread := toNumberRaw (rawCoalesce (rawField g "Spread") (rawField g "spread"))
    overUnder := toNumberRaw (rawCoalesce (rawField g "OverUnder") (rawField g "overUnder"))
    openingSpread := toNumberRaw (rawCoalesce (rawField g "OpeningSpread") (rawField g "openingSpread"))
    openingOverUnder := toNumberRaw
      (rawCoalesce (rawField g "OpeningOverUnder") (rawField g "openingOverUnder"))
    homeMoneyline := toNumberRaw (rawCoalesce (rawField g "HomeMoneyline") (rawField g "homeMoneyline"))
    awayMoneyline := toNumberRaw (rawCoalesce (rawField g "AwayMoneyline") (rawField g "awayMoneyline"))
    seasonType := rawCoalesce (rawField g "SeasonType") (rawCoalesce (rawField g "seasonType") .nullv)
    completed :=
      match rawField g "Completed" with
      | .boolv b => b
      | _ => homeScore.isSome && awayScore.isSome
    lineProvider := rawCoalesce (rawField g "LineProvider")
      (rawCoalesce (rawField g "lineProvider") .nullv) }

/-- A `{home, away}` pair of resolved market tuples. -/
structure SidedHistoryQ where
  home : MarketTupleQ
  away : MarketTupleQ
deriving DecidableEq, Repr

/-- The record returned by `mapNFLGame`.  The history fields are typed
`Option` so that attachment of a tuple to the output object is statable;
the source attaches every one unconditionally (always `some`). -/
structure MappedNFL where
  core : MappedNCAAF
  neutralVenue : RawVal
  playoffGame : Bool
  notes : RawVal
  moneylineHistory : Option SidedHistoryQ
  spreadHistory : Option SidedHistoryQ
  spreadOddsHistory : Option SidedHistoryQ
  totalHistory : Option MarketTupleQ
  totalOverOddsHistory : Option MarketTupleQ
  totalUnderOddsHistory : Option MarketTupleQ

/-- `mapNFLGame` from `server.js`: the NCAAF mapping with sport,
season-type and line-provider overridden, plus the six market-history
structures, each attached unconditionally. -/
def mapNFLGame (g : RawGame) : MappedNFL :=
  let base := mapNCAAFGame g
  let playoffGame :=
    match rawField g "PlayoffGame" with
    | .boolv b => b
    | _ => toBoolean (rawCoalesce (rawField g "PlayoffGame") (rawField g "playoffGame"))
  { core :=
      { base with
        sport := "nfl"
        seasonType := jsOrRaw base.seasonType
          (.str (if playoffGame then "Postseason" else "Regular"))
        lineProvider := jsOrRaw base.lineProvider (.str "Consensus") }
    neutralVenue := rawCoalesce (rawField g "NeutralVenue")
      (rawCoalesce (rawField g "neutralVenue") .nullv)
    playoffGame := playoffGame
    notes := rawCoalesce (rawField g "Notes") (rawCoalesce (rawField g "notes") .nullv)
    moneylineHistory := some
      { home := mapOddsHistory g "HomeMoneyline", away := mapOddsHistory g "AwayMoneyline" }
    spreadHistory := some
      { home := mapLineHistory g "HomeLine", away := mapLineHistory g "AwayLine" }
    spreadOddsHistory := some
      { home := mapOddsHistory g "HomeLineOdds", away := mapOddsHistory g "AwayLineOdds" }
    totalHistory := some (mapLineHistory g "TotalScore")
    totalOverOddsHistory := some (mapOddsHistory g "TotalScoreOver")
    totalUnderOddsHistory := some (mapOddsHistory g "TotalScoreUnder") }

/-! ## Concrete records used by the worked examples -/

/-- The spread record used by the spec's worked example: opening spread
−7, closing spread −3 (taken from the flat fallback fields). -/
def reverseGame : NFLGame :=
  { NFLGame.empty with openingSpread := .num (-7), spread := .num (-3) }

/-- The arbitrage example game: both sides quoted at +110
(decimal 2.1 each). -/
def arbGame : NFLGame :=
  { NFLGame.empty with homeMoneyline := .num 110, awayMoneyline := .num 110 }

/-- The no-arbitrage example game: both sides quoted at −1000/9
(decimal 1.9 each). -/
def noArbGame : NFLGame :=
  { NFLGame.empty with homeMoneyline := .num (-1000/9), awayMoneyline := .num (-1000/9) }

/-- A raw row carrying an explicit boolean `Completed` and no scores. -/
def c9Game : RawGame := [("Completed", RawVal.boolv true)]

/-- A raw row with both scores present and no `Completed` field. -/
def c9WitnessGame : RawGame := [("HomeScore", RawVal.num 21), ("AwayScore", RawVal.num 17)]

/-! ## Helper lemmas -/

theorem mem_sig_spread (a b c d e : Bool) :
    "SPREAD STEAM" ∈ ((if a then ["SPREAD STEAM"] else []) ++ (if b then ["REVERSE"] else []) ++
      (if c then ["TOTAL STEAM"] else []) ++ (if d then ["ML STEAM"] else []) ++
      (if e then ["ARB"] else [])) ↔ a = true := by
  cases a <;> cases b <;> cases c <;> cases d <;> cases e <;> decide

theorem mem_sig_reverse (a b c d e : Bool) :
    "REVERSE" ∈ ((if a then ["SPREAD STEAM"] else []) ++ (if b then ["REVERSE"] else []) ++
      (if c then ["TOTAL STEAM"] else []) ++ (if d then ["ML STEAM"] else []) ++
      (if e then ["ARB"] else [])) ↔ b = true := by
  cases a <;> cases b <;> cases c <;> cases d <;> cases e <;> decide

theorem mem_sig_total (a b c d e : Bool) :
    "TOTAL STEAM" ∈ ((if a then ["SPREAD STEAM"] else []) ++ (if b then ["REVERSE"] else []) ++
      (if c then ["TOTAL STEAM"] else []) ++ (if d then ["ML STEAM"] else []) ++
      (if e then ["ARB"] else [])) ↔ c = true := by
  cases a <;> cases b <;> cases c <;> cases d <;> cases e <;> decide

theorem mem_sig_ml (a b c d e : Bool) :
    "ML STEAM" ∈ ((if a then ["SPREAD STEAM"] else []) ++ (if b then ["REVERSE"] else []) ++
      (if c then ["TOTAL STEAM"] else []) ++ (if d then ["ML STEAM"] else []) ++
      (if e then ["ARB"] else [])) ↔ d = true := by
  cases a <;> cases b <;> cases c <;> cases d <;> cases e <;> decide

theorem mem_sig_arb (a b c d e : Bool) :
    "ARB" ∈ ((if a then ["SPREAD STEAM"] else []) ++ (if b then ["REVERSE"] else []) ++
      (if c then ["TOTAL STEAM"] else []) ++ (if d then ["ML STEAM"] else []) ++
      (if e then ["ARB"] else [])) ↔ e = true := by
  cases a <;> cases b <;> cases c <;> cases d <;> cases e <;> decide

theorem any_abs_ge_iff (t : ℚ) (o : Option ℚ) :
    (o.any fun x => decide (t ≤ |x|)) = true ↔ ∃ x, o = some x ∧ t ≤ |x| := by
  cases o <;> simp

theorem round2_nonneg {x : ℚ} (hx : 0 ≤ x) : 0 ≤ round2 x := by
  unfold round2
  have h1 : (0:ℚ) ≤ x * 100 + 1/2 := by linarith
  have h2 : (0:ℤ) ≤ ⌊x * 100 + 1/2⌋ := Int.floor_nonneg.mpr h1
  have h3 : (0:ℚ) ≤ (⌊x * 100 + 1/2⌋ : ℚ) := by exact_mod_cast h2
  exact div_nonneg h3 (by norm_num)

/-! ## Per-claim theorems -/

/-- Claim C2: each steam tag fires exactly at its inclusive threshold —
`SPREAD STEAM` is in the signals list iff `lineMove` is non-null with
`|lineMove| ≥ 2.5`; `TOTAL STEAM` iff `totalMove` is non-null with
`|totalMove| ≥ 2`; `ML STEAM` iff the max of the absolute probability
shifts (a null shift contributing 0) is at least 5 percentage points.
A null move never yields the corresponding tag. -/
theorem C2_steam_thresholds (g : NFLGame) :
    ("SPREAD STEAM" ∈ (computeNFLMetricsOne g).signals ↔
      ∃ lm, (computeNFLMetricsOne g).lineMove = some lm ∧ (5:ℚ)/2 ≤ |lm|) ∧
    ("TOTAL STEAM" ∈ (computeNFLMetricsOne g).signals ↔
      ∃ tm, (computeNFLMetricsOne g).totalMove = some tm ∧ (2:ℚ) ≤ |tm|) ∧
    ("ML STEAM" ∈ (computeNFLMetricsOne g).signals ↔
      (5:ℚ) ≤ max |((computeNFLMetricsOne g).homeProbabilityShift.getD 0)|
        |((computeNFLMetricsOne g).awayProbabilityShift.getD 0)|) := by
  refine ⟨?_, ?_, ?_⟩ <;> simp only [computeNFLMetricsOne, buildMetrics]
  · rw [mem_sig_spread, any_abs_ge_iff]
  · rw [mem_sig_total, any_abs_ge_iff]
  · rw [mem_sig_ml, decide_eq_true_iff]

theorem buildMetrics_reverse_iff (n : NFLNums) :
    "REVERSE" ∈ (buildMetrics n).signals ↔
      ∃ o c, n.spreadOpen = some o ∧ n.spreadClose = some c ∧
        ((o < 0 ∧ o < c) ∨ (0 < o ∧ c < o)) := by
  obtain ⟨so, sc, _, _, _, _, _, _, _, _, _, _, _, _, _, _, _, _, _, _, _, _⟩ := n
  simp only [buildMetrics]
  rw [mem_sig_reverse]
  cases so <;> cases sc <;> simp

/-- Claim C3: `REVERSE` fires iff both `spreadOpen` and `spreadClose`
are non-null and the line moved toward zero from the opening side;
`clv` always equals the negation of `lineMove`; and on the
worked example (−7 → −3) the line move is 4, both `SPREAD STEAM` and `REVERSE`
fire, and `clv = −4`. -/
theorem C3_reverse_and_clv (g : NFLGame) :
    ("REVERSE" ∈ (computeNFLMetricsOne g).signals ↔
      ∃ o c, (computeNFLMetricsOne g).spreadOpen = some o ∧
        (computeNFLMetricsOne g).spreadClose = some c ∧
        ((o < 0 ∧ o < c) ∨ (0 < o ∧ c < o))) ∧
    (computeNFLMetricsOne g).clv = (computeNFLMetricsOne g).lineMove.map (fun x => -x) ∧
    ((computeNFLMetricsOne reverseGame).lineMove = some 4 ∧
      "SPREAD STEAM" ∈ (computeNFLMetricsOne reverseGame).signals ∧
      "REVERSE" ∈ (computeNFLMetricsOne reverseGame).signals ∧
      (computeNFLMetricsOne reverseGame).clv = some (-4)) := by
  refine ⟨buildMetrics_reverse_iff (extractNums g), rfl, ?_, ?_, ?_, ?_⟩
  all_goals
    norm_num [computeNFLMetricsOne, buildMetrics, extractNums, reverseGame, NFLGame.empty,
      MarketTuple.empty, toNumber, jsCoalesce, jsvalOfOpt, impliedProbabilityFromMoneyline,
      jsNumber, jsFinite, selectBestMoneyline, selectBestStep, List.foldl, JQ.truthy, JQ.gt,
      JQ.inv, round2, Option.any]

/-- Claim C6: the volatility score is the weighted sum of movement
magnitudes (missing components contributing 0) rounded to two decimals,
it is never negative, and an all-null record scores 0. -/
theorem C6_volatility (g : NFLGame) :
    (computeNFLMetricsOne g).volatilityScore = round2
      (|(computeNFLMetricsOne g).lineMove.getD 0| +
        max ((computeNFLMetricsOne g).spreadRange.getD 0) 0 * (1/2) +
        |(computeNFLMetricsOne g).totalMove.getD 0| * (1/2) +
        max ((computeNFLMetricsOne g).totalRange.getD 0) 0 * (1/4) +
        (computeNFLMetricsOne g).moneylineSteam / 5) ∧
    0 ≤ (computeNFLMetricsOne g).volatilityScore ∧
    (computeNFLMetricsOne NFLGame.empty).volatilityScore = 0 := by
  refine ⟨rfl, ?_, ?_⟩
  · have hms : 0 ≤ (computeNFLMetricsOne g).moneylineSteam := by
      simp only [computeNFLMetricsOne, buildMetrics]
      exact le_trans (abs_nonneg _) (le_max_left _ _)
    have hsum : 0 ≤
        |(computeNFLMetricsOne g).lineMove.getD 0| +
          max ((computeNFLMetricsOne g).spreadRange.getD 0) 0 * (1/2) +
          |(computeNFLMetricsOne g).totalMove.getD 0| * (1/2) +
          max ((computeNFLMetricsOne g).totalRange.getD 0) 0 * (1/4) +
          (computeNFLMetricsOne g).moneylineSteam / 5 := by
      have h1 := abs_nonneg ((computeNFLMetricsOne g).lineMove.getD 0)
      have h2 : (0:ℚ) ≤ max ((computeNFLMetricsOne g).spreadRange.getD 0) 0 :=
        le_max_right _ _
      have h3 := abs_nonneg ((computeNFLMetricsOne g).totalMove.getD 0)
      have h4 : (0:ℚ) ≤ max ((computeNFLMetricsOne g).totalRange.getD 0) 0 :=
        le_max_right _ _
      linarith
    calc (0:ℚ) ≤ _ := round2_nonneg hsum
    _ = (computeNFLMetricsOne g).volatilityScore := rfl
  · norm_num [computeNFLMetricsOne, buildMetrics, extractNums, NFLGame.empty,
      MarketTuple.empty, toNumber, jsCoalesce, jsvalOfOpt, impliedProbabilityFromMoneyline,
      jsNumber, jsFinite, selectBestMoneyline, selectBestStep, List.foldl, JQ.truthy, JQ.gt,
      JQ.inv, round2, Option.any]

/-- Claim C1 (the correct branches, and the divergence at zero): for
finite positive `ml` the decimal is `ml/100 + 1`, for finite negative
`ml` it is `100/|ml| + 1`, and NaN/±Infinity/undefined give null; but at
`ml = 0` (and at `ml = null`, which `Number` coerces to 0) the division
`100 / Math.abs(0)` is not guarded and the function returns `Infinity`
rather than the null the specification requires. -/
theorem C1_moneylineToDecimal_zero_unguarded :
    (∀ q : ℚ, 0 < q → moneylineToDecimal (.num q) = some (.fin (q / 100 + 1))) ∧
    (∀ q : ℚ, q < 0 → moneylineToDecimal (.num q) = some (.fin (100 / |q| + 1))) ∧
    moneylineToDecimal .nan = none ∧
    moneylineToDecimal .inf = none ∧
    moneylineToDecimal .ninf = none ∧
    moneylineToDecimal .undefv = none ∧
    moneylineToDecimal (.num 0) = some .jinf ∧
    moneylineToDecimal .nullv = some .jinf := by
  refine ⟨?_, ?_, rfl, rfl, rfl, rfl, ?_, ?_⟩
  · intro q hq
    simp [moneylineToDecimal, jsNumber, jsFinite, hq]
  · intro q hq
    have h1 : ¬ (0 < q) := by linarith
    have h2 : q ≠ 0 := by linarith
    simp [moneylineToDecimal, jsNumber, jsFinite, h1, h2]
  · norm_num [moneylineToDecimal, jsNumber, jsFinite]
  · norm_num [moneylineToDecimal, jsNumber, jsFinite]

theorem C1_moneylineToDecimal_zero_unguarded_witness :
    (0:ℚ) < 150 ∧ (-150:ℚ) < 0 ∧
    moneylineToDecimal (.num 150) = some (.fin ((150:ℚ) / 100 + 1)) ∧
    moneylineToDecimal (.num (-150)) = some (.fin (100 / |(-150:ℚ)| + 1)) :=
  ⟨by norm_num, by norm_num,
    C1_moneylineToDecimal_zero_unguarded.1 150 (by norm_num),
    C1_moneylineToDecimal_zero_unguarded.2.1 (-150) (by norm_num)⟩

/-- Claim C7 counterexample: at `ml = 0` the implied probability is the
non-null number 0, which does not lie strictly between 0 and 1. -/
theorem C7_implied_probability_counterexample :
    impliedProbabilityFromMoneyline (.num 0) = some 0 ∧ ¬(0 < (0:ℚ) ∧ (0:ℚ) < 1) := by
  constructor
  · norm_num [impliedProbabilityFromMoneyline, jsNumber, jsFinite]
  · norm_num

/-- Claim C7 as amended: the stated formulas hold for positive and
negative finite input and non-finite input gives null, but `ml = 0`
(and null, which coerces to 0) yields the probability 0; every non-null
result on finite input lies in `[0, 1)`, and lies strictly in `(0, 1)`
whenever the finite input is non-zero. -/
theorem C7_implied_probability_amended :
    (∀ q : ℚ, 0 < q → impliedProbabilityFromMoneyline (.num q) = some (100 / (q + 100))) ∧
    (∀ q : ℚ, q < 0 → impliedProbabilityFromMoneyline (.num q) = some (|q| / (|q| + 100))) ∧
    impliedProbabilityFromMoneyline .nan = none ∧
    impliedProbabilityFromMoneyline .inf = none ∧
    impliedProbabilityFromMoneyline .ninf = none ∧
    impliedProbabilityFromMoneyline .undefv = none ∧
    impliedProbabilityFromMoneyline (.num 0) = some 0 ∧
    impliedProbabilityFromMoneyline .nullv = some 0 ∧
    (∀ q p : ℚ, impliedProbabilityFromMoneyline (.num q) = some p → 0 ≤ p ∧ p < 1) ∧
    (∀ q p : ℚ, q ≠ 0 → impliedProbabilityFromMoneyline (.num q) = some p → 0 < p ∧ p < 1) := by
  have hpos : ∀ q : ℚ, 0 < q →
      impliedProbabilityFromMoneyline (.num q) = some (100 / (q + 100)) := by
    intro q hq
    simp [impliedProbabilityFromMoneyline, jsNumber, jsFinite, hq]
  have hneg : ∀ q : ℚ, ¬ (0 < q) →
      impliedProbabilityFromMoneyline (.num q) = some (|q| / (|q| + 100)) := by
    intro q hq
    simp [impliedProbabilityFromMoneyline, jsNumber, jsFinite, hq]
  have hrange : ∀ q p : ℚ, impliedProbabilityFromMoneyline (.num q) = some p → 0 ≤ p ∧ p < 1 := by
    intro q p h
    by_cases hq : 0 < q
    · rw [hpos q hq] at h
      obtain rfl : 100 / (q + 100) = p := by injection h
      have hd : (0:ℚ) < q + 100 := by linarith
      constructor
      · positivity
      · rw [div_lt_one hd]; linarith
    · rw [hneg q hq] at h
      obtain rfl : |q| / (|q| + 100) = p := by injection h
      have ha : (0:ℚ) ≤ |q| := abs_nonneg q
      have hd : (0:ℚ) < |q| + 100 := by linarith
      constructor
      · positivity
      · rw [div_lt_one hd]; linarith
  refine ⟨hpos, fun q hq => hneg q (by linarith), rfl, rfl, rfl, rfl, ?_, ?_, hrange, ?_⟩
  · norm_num [impliedProbabilityFromMoneyline, jsNumber, jsFinite]
  · norm_num [impliedProbabilityFromMoneyline, jsNumber, jsFinite]
  · intro q p hq h
    refine ⟨?_, (hrange q p h).2⟩
    by_cases hq' : 0 < q
    · rw [hpos q hq'] at h
      obtain rfl : 100 / (q + 100) = p := by injection h
      have hd : (0:ℚ) < q + 100 := by linarith
      positivity
    · rw [hneg q hq'] at h
      obtain rfl : |q| / (|q| + 100) = p := by injection h
      have ha : (0:ℚ) < |q| := abs_pos.mpr hq
      have hd : (0:ℚ) < |q| + 100 := by linarith
      positivity

theorem C7_implied_probability_amended_witness :
    (0:ℚ) < 100 ∧
    impliedProbabilityFromMoneyline (.num 100) = some ((100:ℚ) / (100 + 100)) ∧
    ((100:ℚ) ≠ 0 ∧ (0:ℚ) < 1/2 ∧ (1:ℚ)/2 < 1) :=
  ⟨by norm_num, C7_implied_probability_amended.1 100 (by norm_num), by
    refine ⟨by norm_num, ?_, by norm_num⟩
    have h := (C7_implied_probability_amended.2.2.2.2.2.2.2.2.2 100 (1/2) (by norm_num)
      (by rw [C7_implied_probability_amended.1 100 (by norm_num)]; norm_num)).1
    exact h⟩

/-- Claim C10: for every finite non-zero moneyline the implied
probability and the decimal odds are exact reciprocals. -/
theorem C10_reciprocal (q : ℚ) (hq : q ≠ 0) :
    ∃ p d, impliedProbabilityFromMoneyline (.num q) = some p ∧
      moneylineToDecimal (.num q) = some (.fin d) ∧ p * d = 1 := by
  rcases lt_or_gt_of_ne hq with hlt | hgt
  · have h1 : ¬ (0 < q) := by linarith
    refine ⟨|q| / (|q| + 100), 100 / |q| + 1, ?_, ?_, ?_⟩
    · simp [impliedProbabilityFromMoneyline, jsNumber, jsFinite, h1]
    · simp [moneylineToDecimal, jsNumber, jsFinite, h1, hq]
    · have ha : (0:ℚ) < |q| := abs_pos.mpr hq
      have ha' : |q| ≠ 0 := ne_of_gt ha
      have hb : |q| + 100 ≠ 0 := by positivity
      field_simp
      ring
  · refine ⟨100 / (q + 100), q / 100 + 1, ?_, ?_, ?_⟩
    · simp [impliedProbabilityFromMoneyline, jsNumber, jsFinite, hgt]
    · simp [moneylineToDecimal, jsNumber, jsFinite, hgt]
    · have h : (0:ℚ) < q + 100 := by linarith
      have h' : q + 100 ≠ 0 := ne_of_gt h
      field_simp

theorem C10_reciprocal_witness :
    (150:ℚ) ≠ 0 ∧ ∃ p d, impliedProbabilityFromMoneyline (.num 150) = some p ∧
      moneylineToDecimal (.num 150) = some (.fin d) ∧ p * d = 1 :=
  ⟨by norm_num, C10_reciprocal 150 (by norm_num)⟩

theorem moneylineToDecimal_num (v : ℚ) :
    moneylineToDecimal (.num v) = some (survivorDecimal v) := by
  by_cases h1 : 0 < v
  · simp [moneylineToDecimal, survivorDecimal, jsNumber, jsFinite, h1]
  · by_cases h2 : v = 0 <;>
      simp [moneylineToDecimal, survivorDecimal, jsNumber, jsFinite, h1, h2]

theorem survivorDecimal_truthy (v : ℚ) : (survivorDecimal v).truthy = true := by
  unfold survivorDecimal
  rcases lt_trichotomy v 0 with h | h | h
  · have h1 : ¬ (0 < v) := by linarith
    have h2 : v ≠ 0 := ne_of_lt h
    have ha : (0:ℚ) < |v| := abs_pos.mpr h2
    simp only [h1, if_false, h2, if_neg, JQ.truthy, decide_eq_true_iff]
    positivity
  · subst h; simp [JQ.truthy]
  · simp only [h, if_pos, JQ.truthy, decide_eq_true_iff]
    positivity

theorem foldl_filterMap {α β γ : Type} (f : α → Option β) (g : γ → β → γ) (init : γ)
    (l : List α) :
    (l.filterMap f).foldl g init =
      l.foldl (fun acc a => match f a with | some b => g acc b | none => acc) init := by
  induction l generalizing init with
  | nil => rfl
  | cons a l ih =>
    cases h : f a <;> simp [List.filterMap_cons, h, ih]

theorem selectBest_eq_spec (cands : List JSVal) :
    selectBestMoneyline cands = specSelectBestPrice cands := by
  unfold selectBestMoneyline specSelectBestPrice
  rw [List.foldl_map, foldl_filterMap]
  apply List.foldl_ext
  intro best c _
  obtain ⟨bv, bd⟩ := best
  cases htc : toNumber c
  · simp [selectBestStep, htc]
  · cases bd <;>
      simp [selectBestStep, htc, moneylineToDecimal_num, survivorDecimal_truthy]

theorem foldl_selectBestStep_null (l : List JSVal) (acc : BestPrice)
    (h : ∀ c ∈ l, toNumber c = none) : l.foldl selectBestStep acc = acc := by
  induction l generalizing acc with
  | nil => rfl
  | cons a l ih =>
    rw [List.foldl_cons]
    have hstep : selectBestStep acc a = acc := by
      simp [selectBestStep, h a (List.mem_cons_self a l)]
    rw [hstep]
    exact ih acc fun c hc => h c (List.mem_cons_of_mem a hc)

/-- Claim C5: the best-price selector agrees with its specification
(filter out nulls and non-finite entries, convert survivors to decimal
odds, pick the maximum decimal with first-wins ties) on every input;
empty and all-null inputs give the null pair; and the worked example
`[-110, 150, null, 120]` picks 150 at decimal 2.5. -/
theorem C5_selectBestPrice :
    (∀ cands : List JSVal, selectBestMoneyline cands = specSelectBestPrice cands) ∧
    selectBestMoneyline [] = { value := none, decimal := none } ∧
    (∀ cands : List JSVal, (∀ c ∈ cands, toNumber c = none) →
      selectBestMoneyline cands = { value := none, decimal := none }) ∧
    selectBestMoneyline [.num (-110), .num 150, .nullv, .num 120] =
      { value := some 150, decimal := some (.fin (5/2)) } := by
  refine ⟨selectBest_eq_spec, rfl, ?_, ?_⟩
  · intro cands h
    exact foldl_selectBestStep_null cands _ h
  · norm_num [selectBestMoneyline, selectBestStep, toNumber, moneylineToDecimal,
      jsNumber, jsFinite, JQ.truthy, JQ.gt, List.foldl]

theorem C5_selectBestPrice_witness :
    (∀ c ∈ ([JSVal.nullv, JSVal.nan] : List JSVal), toNumber c = none) ∧
    selectBestMoneyline [JSVal.nullv, JSVal.nan] = { value := none, decimal := none } :=
  ⟨by decide, C5_selectBestPrice.2.2.1 [JSVal.nullv, JSVal.nan] (by decide)⟩

theorem selectBestStep_truthy (acc : BestPrice) (a : JSVal)
    (hacc : ∀ d, acc.decimal = some d → d.truthy = true) :
    ∀ d, (selectBestStep acc a).decimal = some d → d.truthy = true := by
  obtain ⟨av, ad⟩ := acc
  intro d hd
  cases htc : toNumber a
  · simp only [selectBestStep, htc] at hd
    exact hacc d hd
  case some v =>
    cases ad with
    | none =>
      simp [selectBestStep, htc, moneylineToDecimal_num, survivorDecimal_truthy] at hd
      exact hd ▸ survivorDecimal_truthy v
    | some bd =>
      by_cases hgt : (survivorDecimal v).gt bd = true
      · simp [selectBestStep, htc, moneylineToDecimal_num, survivorDecimal_truthy, hgt] at hd
        exact hd ▸ survivorDecimal_truthy v
      · simp [selectBestStep, htc, moneylineToDecimal_num, survivorDecimal_truthy, hgt] at hd
        exact hd ▸ hacc bd rfl

theorem foldl_selectBestStep_truthy (l : List JSVal) (acc : BestPrice)
    (hacc : ∀ d, acc.decimal = some d → d.truthy = true) :
    ∀ d, (l.foldl selectBestStep acc).decimal = some d → d.truthy = true := by
  induction l generalizing acc with
  | nil => exact hacc
  | cons a l ih =>
    rw [List.foldl_cons]
    exact ih _ (selectBestStep_truthy acc a hacc)

theorem selectBest_decimal_truthy (cands : List JSVal) :
    ∀ d, (selectBestMoneyline cands).decimal = some d → d.truthy = true :=
  foldl_selectBestStep_truthy cands _ (fun _ hd => Option.noConfusion hd)

/-- Claim C4: when both sides' best decimal prices exist, `ARB` fires
and `arbProfit = (1 − inverseSum) × 100` exactly when
`inverseSum = 1/bestHome + 1/bestAway < 1`; in every other case
(`inverseSum ≥ 1`, or a missing best on either side) `arbProfit` is
null and `ARB` is absent. -/
theorem C4_arbitrage (g : NFLGame) :
    (∀ dh da, (computeNFLMetricsOne g).bestHomeMoneylineDecimal = some dh →
      (computeNFLMetricsOne g).bestAwayMoneylineDecimal = some da →
      ((dh.inv + da.inv < 1 →
          (computeNFLMetricsOne g).arbProfit = some ((1 - (dh.inv + da.inv)) * 100) ∧
          "ARB" ∈ (computeNFLMetricsOne g).signals) ∧
        (1 ≤ dh.inv + da.inv →
          (computeNFLMetricsOne g).arbProfit = none ∧
          "ARB" ∉ (computeNFLMetricsOne g).signals))) ∧
    ((computeNFLMetricsOne g).bestHomeMoneylineDecimal = none ∨
      (computeNFLMetricsOne g).bestAwayMoneylineDecimal = none →
      (computeNFLMetricsOne g).arbProfit = none ∧
      "ARB" ∉ (computeNFLMetricsOne g).signals) := by
  simp only [computeNFLMetricsOne, buildMetrics]
  cases hbd : (selectBestMoneyline
      [jsvalOfOpt (extractNums g).homeMlOpen, jsvalOfOpt (extractNums g).homeMlClose,
        jsvalOfOpt (extractNums g).homeMlMin, jsvalOfOpt (extractNums g).homeMlMax]).decimal with
  | none =>
    cases had : (selectBestMoneyline
        [jsvalOfOpt (extractNums g).awayMlOpen, jsvalOfOpt (extractNums g).awayMlClose,
          jsvalOfOpt (extractNums g).awayMlMin, jsvalOfOpt (extractNums g).awayMlMax]).decimal <;>
      refine ⟨fun dh da hdh hda => by simp at hdh, fun _ => ?_⟩ <;>
      · rw [mem_sig_arb]
        simp
  | some dh0 =>
    cases had : (selectBestMoneyline
        [jsvalOfOpt (extractNums g).awayMlOpen, jsvalOfOpt (extractNums g).awayMlClose,
          jsvalOfOpt (extractNums g).awayMlMin, jsvalOfOpt (extractNums g).awayMlMax]).decimal with
    | none =>
      refine ⟨fun dh da hdh hda => by simp at hda, fun _ => ?_⟩
      rw [mem_sig_arb]
      simp
    | some da0 =>
      have hdt : dh0.truthy = true := selectBest_decimal_truthy _ dh0 hbd
      have hat : da0.truthy = true := selectBest_decimal_truthy _ da0 had
      refine ⟨fun dh da hdh hda => ?_, fun hcontra => by simp at hcontra⟩
      obtain rfl : dh0 = dh := by injection hdh
      obtain rfl : da0 = da := by injection hda
      constructor
      · intro hlt
        rw [mem_sig_arb]
        simp [hdt, hat, hlt]
      · intro hge
        have hnlt : ¬ (dh0.inv + da0.inv < 1) := not_lt.mpr hge
        rw [mem_sig_arb]
        simp [hdt, hat, hnlt]

theorem C4_arbitrage_witness :
    ((computeNFLMetricsOne arbGame).bestHomeMoneylineDecimal = some (.fin (21/10)) ∧
      (computeNFLMetricsOne arbGame).bestAwayMoneylineDecimal = some (.fin (21/10)) ∧
      (JQ.fin (21/10)).inv + (JQ.fin (21/10)).inv < 1 ∧
      (computeNFLMetricsOne arbGame).arbProfit =
        some ((1 - ((JQ.fin (21/10)).inv + (JQ.fin (21/10)).inv)) * 100) ∧
      "ARB" ∈ (computeNFLMetricsOne arbGame).signals) ∧
    ((computeNFLMetricsOne noArbGame).bestHomeMoneylineDecimal = some (.fin (19/10)) ∧
      (computeNFLMetricsOne noArbGame).bestAwayMoneylineDecimal = some (.fin (19/10)) ∧
      1 ≤ (JQ.fin (19/10)).inv + (JQ.fin (19/10)).inv ∧
      (computeNFLMetricsOne noArbGame).arbProfit = none ∧
      "ARB" ∉ (computeNFLMetricsOne noArbGame).signals) := by
  have hbh : (computeNFLMetricsOne arbGame).bestHomeMoneylineDecimal = some (.fin (21/10)) := by
    norm_num [computeNFLMetricsOne, buildMetrics, extractNums, arbGame, NFLGame.empty,
      MarketTuple.empty, toNumber, jsCoalesce, jsvalOfOpt, selectBestMoneyline, selectBestStep,
      moneylineToDecimal, jsNumber, jsFinite, JQ.truthy, JQ.gt, List.foldl]
  have hba : (computeNFLMetricsOne arbGame).bestAwayMoneylineDecimal = some (.fin (21/10)) := by
    norm_num [computeNFLMetricsOne, buildMetrics, extractNums, arbGame, NFLGame.empty,
      MarketTuple.empty, toNumber, jsCoalesce, jsvalOfOpt, selectBestMoneyline, selectBestStep,
      moneylineToDecimal, jsNumber, jsFinite, JQ.truthy, JQ.gt, List.foldl]
  have hlt : (JQ.fin ((21:ℚ)/10)).inv + (JQ.fin ((21:ℚ)/10)).inv < 1 := by
    norm_num [JQ.inv]
  have habs : |(1000:ℚ)/9| = 1000/9 := abs_of_nonneg (by norm_num)
  have hbh2 : (computeNFLMetricsOne noArbGame).bestHomeMoneylineDecimal =
      some (.fin (19/10)) := by
    norm_num [computeNFLMetricsOne, buildMetrics, extractNums, noArbGame, NFLGame.empty,
      MarketTuple.empty, toNumber, jsCoalesce, jsvalOfOpt, selectBestMoneyline, selectBestStep,
      moneylineToDecimal, jsNumber, jsFinite, JQ.truthy, JQ.gt, List.foldl, habs]
  have hba2 : (computeNFLMetricsOne noArbGame).bestAwayMoneylineDecimal =
      some (.fin (19/10)) := by
    norm_num [computeNFLMetricsOne, buildMetrics, extractNums, noArbGame, NFLGame.empty,
      MarketTuple.empty, toNumber, jsCoalesce, jsvalOfOpt, selectBestMoneyline, selectBestStep,
      moneylineToDecimal, jsNumber, jsFinite, JQ.truthy, JQ.gt, List.foldl, habs]
  have hge : 1 ≤ (JQ.fin ((19:ℚ)/10)).inv + (JQ.fin ((19:ℚ)/10)).inv := by
    norm_num [JQ.inv]
  have h1 := ((C4_arbitrage arbGame).1 _ _ hbh hba).1 hlt
  have h2 := ((C4_arbitrage noArbGame).1 _ _ hbh2 hba2).2 hge
  exact ⟨⟨hbh, hba, hlt, h1.1, h1.2⟩, ⟨hbh2, hba2, hge, h2.1, h2.2⟩⟩

/-- Claim C8 counterexample: on the empty raw row, `mapNFLGame` still
attaches `totalHistory` (and every other history tuple) even though all
four of its fields are null — the spec's `historyHasValues` gate does
not exist in the code. -/
theorem C8_history_attach_counterexample :
    (mapNFLGame []).totalHistory =
      some { open' := none, min' := none, max' := none, close' := none } := by
  decide

/-- Claim C8 as amended: `mapNFLGame` attaches every market-history
tuple to the output unconditionally, all-null or not. -/
theorem C8_history_always_attached (g : RawGame) :
    (mapNFLGame g).moneylineHistory.isSome = true ∧
    (mapNFLGame g).spreadHistory.isSome = true ∧
    (mapNFLGame g).spreadOddsHistory.isSome = true ∧
    (mapNFLGame g).totalHistory.isSome = true ∧
    (mapNFLGame g).totalOverOddsHistory.isSome = true ∧
    (mapNFLGame g).totalUnderOddsHistory.isSome = true :=
  ⟨rfl, rfl, rfl, rfl, rfl, rfl⟩

/-- Claim C9 counterexample: a raw row with boolean `Completed = true`
and no score fields maps to a record with `completed = true` and both
scores null, violating the claimed invariant. -/
theorem C9_completed_counterexample :
    (mapNCAAFGame c9Game).completed = true ∧
    (mapNCAAFGame c9Game).homeScore = none ∧
    (mapNCAAFGame c9Game).awayScore = none := by
  decide

/-- Claim C9 as amended: when the raw row does not carry a boolean
`Completed` field, the derived `completed` flag is true only when both
scores are non-null; an explicit boolean `Completed` is passed through
unchecked, which is where the original invariant fails. -/
theorem C9_completed_amended (g : RawGame)
    (h : ∀ b : Bool, rawField g "Completed" ≠ RawVal.boolv b) :
    (mapNCAAFGame g).completed = true →
      (mapNCAAFGame g).homeScore.isSome = true ∧
      (mapNCAAFGame g).awayScore.isSome = true := by
  simp only [mapNCAAFGame]
  intro hc
  cases hv : rawField g "Completed" <;>
    first
      | exact absurd hv (h _)
      | (simp only [hv, Bool.and_eq_true] at hc
         exact ⟨hc.1, hc.2⟩)

theorem C9_completed_amended_witness :
    (∀ b : Bool, rawField c9WitnessGame "Completed" ≠ RawVal.boolv b) ∧
    ((mapNCAAFGame c9WitnessGame).completed = true →
      (mapNCAAFGame c9WitnessGame).homeScore.isSome = true ∧
      (mapNCAAFGame c9WitnessGame).awayScore.isSome = true) :=
  ⟨by decide, C9_completed_amended c9WitnessGame (by decide)⟩

end NCAAF
